import Mathlib

/-!
Verification of the covariate fetcher (serial and threaded variants).

The development shallowly embeds the cache / checkpoint / fetch core of
`covariate_fetcher_serial.py` and `covariate_fetcher_threaded.py`:

* Python floats are modelled as rationals (`ℚ`); Python's built-in `round`
  (round half to even) is `pyRound`.
* The JSON caches are association lists keyed by the cell key
  `(year, quantized lat, quantized lon)`; the textual key
  `f"{year},{lat},{lon}"` used by the scripts is in bijection with that
  triple (the serialized components contain no comma), so cell keys are
  kept structured here.
* Backend interactions are oracles: a function from the attempt index to
  the outcome the backend produces for that attempt.
-/

/-- Python's built-in `round` applied to a rational: round to the nearest
integer, ties going to the even integer (banker's rounding). -/
def pyRound (x : ℚ) : ℤ :=
  let f := Rat.floor x
  let r := x - (f : ℚ)
  if r < 1/2 then f
  else if 1/2 < r then f + 1
  else if f % 2 = 0 then f else f + 1

theorem rat_floor_eq_intFloor (q : ℚ) : Rat.floor q = ⌊q⌋ := by
  rw [Rat.floor_def', Rat.floor_def]

theorem pyRound_intCast (n : ℤ) : pyRound (n : ℚ) = n := by
  simp [pyRound, rat_floor_eq_intFloor]

namespace Config

/-- Config.GRID_SIZE_KM = 25 (both variants ship this value). -/
def GRID_SIZE_KM : ℚ := 25

/-- Config.MIN_NDVI_RES_KM = 0.25 (MODIS NDVI minimum: 250 m). -/
def MIN_NDVI_RES_KM : ℚ := 0.25

/-- Config.MIN_TEMP_PRECIP_RES_KM = 25 (Open-Meteo minimum). -/
def MIN_TEMP_PRECIP_RES_KM : ℚ := 25

/-- Config.NDVI_RES_KM = max(GRID_SIZE_KM, MIN_NDVI_RES_KM). -/
def NDVI_RES_KM : ℚ := max GRID_SIZE_KM MIN_NDVI_RES_KM

/-- Config.TEMP_PRECIP_RES_KM = max(GRID_SIZE_KM, MIN_TEMP_PRECIP_RES_KM). -/
def TEMP_PRECIP_RES_KM : ℚ := max GRID_SIZE_KM MIN_TEMP_PRECIP_RES_KM

/-- Config.NDVI_RES_DEG = NDVI_RES_KM / 111.0. -/
def NDVI_RES_DEG : ℚ := NDVI_RES_KM / 111

/-- Config.TEMP_PRECIP_RES_DEG = TEMP_PRECIP_RES_KM / 111.0. -/
def TEMP_PRECIP_RES_DEG : ℚ := TEMP_PRECIP_RES_KM / 111

/-- Config.NDVI_COL with the resolution 25 interpolated, as in the f-string. -/
def NDVI_COL : String := "ndvi_mean_(0–1)_(25x25km)"

/-- Config.TEMP_COL with the resolution 25 interpolated. -/
def TEMP_COL : String := "temp_mean_(°C)_(25x25km)"

/-- Config.PRECIP_COL with the resolution 25 interpolated. -/
def PRECIP_COL : String := "precip_sum_(mm/year)_(25x25km)"

end Config

/-- Shared body of `round_coord_gee` / `round_coord_om` applied to one
coordinate: `round(x / deg) * deg`. -/
def quantizeCoord (deg x : ℚ) : ℚ := (pyRound (x / deg) : ℚ) * deg

/-- round_coord_gee(lat, lon): round both coordinates to the NDVI grid. -/
def round_coord_gee (lat lon : ℚ) : ℚ × ℚ :=
  (quantizeCoord Config.NDVI_RES_DEG lat, quantizeCoord Config.NDVI_RES_DEG lon)

/-- round_coord_om(lat, lon): round both coordinates to the temperature /
precipitation grid. -/
def round_coord_om (lat lon : ℚ) : ℚ × ℚ :=
  (quantizeCoord Config.TEMP_PRECIP_RES_DEG lat, quantizeCoord Config.TEMP_PRECIP_RES_DEG lon)

theorem quantizeCoord_idem (deg : ℚ) (h : deg ≠ 0) (x : ℚ) :
    quantizeCoord deg (quantizeCoord deg x) = quantizeCoord deg x := by
  unfold quantizeCoord
  rw [mul_div_cancel_right₀ _ h, pyRound_intCast]

theorem ndvi_res_deg_ne_zero : Config.NDVI_RES_DEG ≠ 0 := by
  norm_num [Config.NDVI_RES_DEG, Config.NDVI_RES_KM, Config.GRID_SIZE_KM,
    Config.MIN_NDVI_RES_KM]

theorem temp_precip_res_deg_ne_zero : Config.TEMP_PRECIP_RES_DEG ≠ 0 := by
  norm_num [Config.TEMP_PRECIP_RES_DEG, Config.TEMP_PRECIP_RES_KM, Config.GRID_SIZE_KM,
    Config.MIN_TEMP_PRECIP_RES_KM]

/-- C8: quantization is idempotent — for every coordinate and every nonzero
resolution step, rounding a coordinate that is already on the grid leaves it
unchanged; in particular both `round_coord_gee` and `round_coord_om` are
idempotent on pairs. -/
theorem C8_quantization_idempotent :
    (∀ deg : ℚ, deg ≠ 0 → ∀ x : ℚ,
      quantizeCoord deg (quantizeCoord deg x) = quantizeCoord deg x) ∧
    (∀ lat lon : ℚ,
      round_coord_gee (round_coord_gee lat lon).1 (round_coord_gee lat lon).2 =
        round_coord_gee lat lon) ∧
    (∀ lat lon : ℚ,
      round_coord_om (round_coord_om lat lon).1 (round_coord_om lat lon).2 =
        round_coord_om lat lon) := by
  refine ⟨fun deg h x => quantizeCoord_idem deg h x, fun lat lon => ?_, fun lat lon => ?_⟩
  · simp only [round_coord_gee]
    rw [quantizeCoord_idem _ ndvi_res_deg_ne_zero, quantizeCoord_idem _ ndvi_res_deg_ne_zero]
  · simp only [round_coord_om]
    rw [quantizeCoord_idem _ temp_precip_res_deg_ne_zero,
      quantizeCoord_idem _ temp_precip_res_deg_ne_zero]

/-- Witness for C8 at the concrete resolution 25/111 and coordinate 34.05. -/
theorem C8_quantization_idempotent_witness :
    (25 / 111 : ℚ) ≠ 0 ∧
      quantizeCoord (25 / 111) (quantizeCoord (25 / 111) (34.05 : ℚ)) =
        quantizeCoord (25 / 111) (34.05 : ℚ) :=
  ⟨by norm_num, C8_quantization_idempotent.1 (25 / 111) (by norm_num) (34.05 : ℚ)⟩

/-- C2 counterexample: with the shipped grid size of 25 km the NDVI
effective resolution is max(25, 0.25) = 25 km, identical to the climate
resolution, so for the row (lat = 34.05, lon = -118.25) the quantized
vegetation cell EQUALS the quantized climate cell — the claim that the two
cells differ is false. -/
theorem C2_counterexample :
    round_coord_gee (34.05 : ℚ) (-118.25) = round_coord_om (34.05 : ℚ) (-118.25) ∧
      Config.NDVI_RES_DEG = Config.TEMP_PRECIP_RES_DEG := by
  constructor
  · norm_num [round_coord_gee, round_coord_om, Config.NDVI_RES_DEG,
      Config.TEMP_PRECIP_RES_DEG, Config.NDVI_RES_KM, Config.TEMP_PRECIP_RES_KM,
      Config.GRID_SIZE_KM, Config.MIN_NDVI_RES_KM, Config.MIN_TEMP_PRECIP_RES_KM]
  · norm_num [Config.NDVI_RES_DEG, Config.TEMP_PRECIP_RES_DEG, Config.NDVI_RES_KM,
      Config.TEMP_PRECIP_RES_KM, Config.GRID_SIZE_KM, Config.MIN_NDVI_RES_KM,
      Config.MIN_TEMP_PRECIP_RES_KM]

/-- C2 amended: for the input row (lat = 34.05, lon = -118.25) with grid
resolution 25 km, both effective resolutions are 25 km (the 0.25 km NDVI
minimum binds only for grids below it), so the quantized vegetation cell
equals the quantized climate cell; both quantizations are deterministic,
producing the fixed pair (3775/111, -13125/111) degrees on every run. -/
theorem C2_amended :
    Config.NDVI_RES_KM = 25 ∧ Config.TEMP_PRECIP_RES_KM = 25 ∧
      round_coord_gee (34.05 : ℚ) (-118.25) = (3775 / 111, -13125 / 111) ∧
      round_coord_om (34.05 : ℚ) (-118.25) = (3775 / 111, -13125 / 111) := by
  refine ⟨?_, ?_, ?_, ?_⟩ <;>
    norm_num [round_coord_gee, round_coord_om, quantizeCoord, pyRound,
      rat_floor_eq_intFloor, Config.NDVI_RES_DEG, Config.TEMP_PRECIP_RES_DEG,
      Config.NDVI_RES_KM, Config.TEMP_PRECIP_RES_KM, Config.GRID_SIZE_KM,
      Config.MIN_NDVI_RES_KM, Config.MIN_TEMP_PRECIP_RES_KM]

/-- Parsed "daily" object of a climate-backend (Open-Meteo archive) response.
Each field is a daily series: `none` for the whole field models the key being
absent from the JSON object (`js.get(key)` misses), and a `none` entry inside
a list models a JSON null for that day. -/
structure DailyResponse where
  temperature_2m_max : Option (List (Option ℚ))
  temperature_2m_min : Option (List (Option ℚ))
  precipitation_sum : Option (List (Option ℚ))
deriving DecidableEq

/-- np.sum over a parsed JSON list: an all-numeric list is summed (empty list
gives 0.0); a list containing a null makes numpy build an object-dtype array
whose reduction evaluates `float + None` and raises `TypeError` — modelled as
`none`, to be caught by the fetcher's enclosing except-branch. -/
def npSum : List (Option ℚ) → Option ℚ
  | [] => some 0
  | x :: xs => x.bind (fun v => (npSum xs).map (fun s => v + s))

/-- The temperature list comprehension of both fetchers:
zip the max series with the min series (zip truncates to the shorter list),
keep only the days where both entries are numbers, and take (a + b) / 2. -/
def midpoints : List (Option ℚ) → List (Option ℚ) → List ℚ
  | a :: as, b :: bs =>
    match a, b with
    | some x, some y => (x + y) / 2 :: midpoints as bs
    | _, _ => midpoints as bs
  | _, _ => []

/-- Shared aggregation body of fetch_temp_precip (serial, lines 266-282) and
fetch_temp_precip_single (threaded, lines 327-346), applied to the parsed
daily object: `none` when the aggregation raises inside the try-block
(np.sum TypeError on a null precipitation entry), otherwise
`some (temp_mean, precip_sum)`. -/
def fetchFromDaily (js : DailyResponse) : Option (Option ℚ × Option ℚ) :=
  let temps := midpoints (js.temperature_2m_max.getD []) (js.temperature_2m_min.getD [])
  let temp_mean : Option ℚ := if temps = [] then none else some (temps.sum / temps.length)
  match js.precipitation_sum with
  | none => some (temp_mean, none)
  | some l =>
    match npSum l with
    | some s => some (temp_mean, some s)
    | none => none

/-- Outcome of one Earth-Engine attempt inside the try-block of
fetch_ndvi / fetch_ndvi_single: `ok raw` is a completed query (`raw = none`
when the collection is empty or the reduced NDVI is null, otherwise the raw
NDVI before the /10000 scaling); `rateLimitErr` an exception whose text
carries the 429/quota/rate marker; `otherErr` any other exception. -/
inductive GeeOutcome where
  | ok (raw : Option ℚ)
  | rateLimitErr
  | otherErr
deriving DecidableEq

/-- Outcome of one Open-Meteo request: a parsed response, an HTTP 429, or any
other error (bad status, network failure, unparseable body). -/
inductive OmOutcome where
  | ok (js : DailyResponse)
  | status429
  | otherErr
deriving DecidableEq

/-- Result-column dict (threaded variant): column name to value-or-null. -/
abbrev Vals := List (String × Option ℚ)

/-- fetch_ndvi (serial): the retry loop with max_retries = 3. `attempt` is
the loop index and `rem + 1` the iterations left. A rate-limit error sleeps
and retries, and on the last iteration falls off the loop — Python then
returns an implicit None; any other error returns None on the last attempt
and otherwise retries immediately (the source has no else-branch there). -/
def fetch_ndvi_go (attempts : ℕ → GeeOutcome) : ℕ → ℕ → Option ℚ
  | _, 0 => none
  | attempt, rem + 1 =>
    match attempts attempt with
    | .ok raw => raw.map (fun v => v / 10000)
    | .rateLimitErr => fetch_ndvi_go attempts (attempt + 1) rem
    | .otherErr =>
      if rem = 0 then none else fetch_ndvi_go attempts (attempt + 1) rem

/-- fetch_ndvi(lat, lon, year) of the serial variant as a function of the
backend-attempt oracle. -/
def fetch_ndvi (attempts : ℕ → GeeOutcome) : Option ℚ :=
  fetch_ndvi_go attempts 0 3

/-- fetch_ndvi_single (threaded): same loop, but exhausting the retries on a
rate-limit signal raises RuntimeError("GEE_RATE_LIMIT") — modelled as
`Except.error` — while any other final error returns the one-column dict with
a null value. The fuel-zero case is unreachable (every last iteration returns
or raises). -/
def fetch_ndvi_single_go (attempts : ℕ → GeeOutcome) : ℕ → ℕ → Except String Vals
  | _, 0 => .ok []
  | attempt, rem + 1 =>
    match attempts attempt with
    | .ok raw => .ok [(Config.NDVI_COL, raw.map (fun v => v / 10000))]
    | .rateLimitErr =>
      if rem = 0 then .error "GEE_RATE_LIMIT"
      else fetch_ndvi_single_go attempts (attempt + 1) rem
    | .otherErr =>
      if rem = 0 then .ok [(Config.NDVI_COL, none)]
      else fetch_ndvi_single_go attempts (attempt + 1) rem

/-- fetch_ndvi_single(lat, lon, year) of the threaded variant. -/
def fetch_ndvi_single (attempts : ℕ → GeeOutcome) : Except String Vals :=
  fetch_ndvi_single_go attempts 0 3

/-- fetch_temp_precip (serial): a single request — the function has no retry
loop. The whole body sits in one try-block, so the 429-triggered
RuntimeError, a bad HTTP status, and the np.sum TypeError all land in the
except-branch, which returns (None, None). Only the first attempt outcome is
ever consulted. -/
def fetch_temp_precip (attempts : ℕ → OmOutcome) : Option ℚ × Option ℚ :=
  match attempts 0 with
  | .ok js => (fetchFromDaily js).getD (none, none)
  | .status429 => (none, none)
  | .otherErr => (none, none)

/-- fetch_temp_precip_single (threaded): retry loop with max_retries = 3.
A 429 on the last attempt raises RuntimeError("OM_RATE_LIMIT") (modelled as
`Except.error`); any other exception — including the np.sum TypeError on a
null precipitation entry, which `except RuntimeError: raise` does not catch
but `except Exception` does — sleeps 5 s and retries, returning the all-null
dict on the last attempt. -/
def fetch_temp_precip_single_go (attempts : ℕ → OmOutcome) : ℕ → ℕ → Except String Vals
  | _, 0 => .ok []
  | attempt, rem + 1 =>
    match attempts attempt with
    | .status429 =>
      if rem = 0 then .error "OM_RATE_LIMIT"
      else fetch_temp_precip_single_go attempts (attempt + 1) rem
    | .otherErr =>
      if rem = 0 then .ok [(Config.TEMP_COL, none), (Config.PRECIP_COL, none)]
      else fetch_temp_precip_single_go attempts (attempt + 1) rem
    | .ok js =>
      match fetchFromDaily js with
      | some (t, p) => .ok [(Config.TEMP_COL, t), (Config.PRECIP_COL, p)]
      | none =>
        if rem = 0 then .ok [(Config.TEMP_COL, none), (Config.PRECIP_COL, none)]
        else fetch_temp_precip_single_go attempts (attempt + 1) rem

/-- fetch_temp_precip_single(lat, lon, year) of the threaded variant. -/
def fetch_temp_precip_single (attempts : ℕ → OmOutcome) : Except String Vals :=
  fetch_temp_precip_single_go attempts 0 3

theorem npSum_eq_none_iff (l : List (Option ℚ)) : npSum l = none ↔ none ∈ l := by
  induction l with
  | nil => simp [npSum]
  | cons x xs ih => cases x <;> simp [npSum, ih]

theorem npSum_eq_sum (l : List (Option ℚ)) (h : ¬ none ∈ l) :
    npSum l = some ((l.map (fun x => x.getD 0)).sum) := by
  induction l with
  | nil => simp [npSum]
  | cons x xs ih =>
    simp only [List.mem_cons, not_or] at h
    cases x with
    | none => exact absurd rfl h.1
    | some v => simp [npSum, ih h.2]

/-- Daily response with max = [20, 22], min = [10, 12] and a partially
missing precipitation series [5, null] (spec §8 scenario). -/
def jsPoison : DailyResponse :=
  ⟨some [some 20, some 22], some [some 10, some 12], some [some 5, none]⟩

/-- Daily response with max = [20, 22], min = [10, 12] and a fully present
precipitation series [5]. -/
def jsGood : DailyResponse :=
  ⟨some [some 20, some 22], some [some 10, some 12], some [some 5]⟩

/-- Daily response with max = [20, 22], min = [10, 12] and the precipitation
key entirely missing. -/
def jsNoPrecip : DailyResponse :=
  ⟨some [some 20, some 22], some [some 10, some 12], none⟩

/-- C3 counterexample: for a response whose precipitation key IS present but
contains one null day ([5, null]), the precipitation aggregate is absent
(np.sum raises on the null and the except-branch returns the all-absent
pair), not the sum 5 over available days — so "absent exactly when the key
is entirely missing, otherwise missing days count as zero" is false. -/
theorem C3_counterexample :
    jsPoison.precipitation_sum ≠ none ∧
      (fetch_temp_precip (fun _ => OmOutcome.ok jsPoison)).2 = none ∧
      (fetch_temp_precip (fun _ => OmOutcome.ok jsPoison)).2 ≠ some 5 := by
  refine ⟨by decide, by decide, by decide⟩

/-- C3 amended: the precipitation aggregate of the serial climate fetch is
absent iff the precipitation key is missing from the response OR the series
contains an absent day (np.sum raises a TypeError, and the except-branch
then makes the whole result absent); when the key is present and every daily
value is a number, the aggregate equals the sum of the daily values. -/
theorem C3_amended (js : DailyResponse) :
    ((fetch_temp_precip (fun _ => OmOutcome.ok js)).2 = none ↔
      js.precipitation_sum = none ∨ ∃ l, js.precipitation_sum = some l ∧ none ∈ l) ∧
    (∀ l, js.precipitation_sum = some l → ¬ none ∈ l →
      (fetch_temp_precip (fun _ => OmOutcome.ok js)).2 =
        some ((l.map (fun x => x.getD 0)).sum)) := by
  constructor
  · cases hp : js.precipitation_sum with
    | none => simp [fetch_temp_precip, fetchFromDaily, hp]
    | some l =>
      cases hs : npSum l with
      | none =>
        have hm : none ∈ l := (npSum_eq_none_iff l).1 hs
        simp [fetch_temp_precip, fetchFromDaily, hp, hs, hm]
      | some s =>
        have hm : ¬ none ∈ l := fun h => by simp [(npSum_eq_none_iff l).2 h] at hs
        simp [fetch_temp_precip, fetchFromDaily, hp, hs, hm]
  · intro l hp hnl
    simp [fetch_temp_precip, fetchFromDaily, hp, npSum_eq_sum l hnl]

/-- Witness for C3 amended on the fully present series [5]. -/
theorem C3_amended_witness :
    jsGood.precipitation_sum = some [some (5 : ℚ)] ∧
      (fetch_temp_precip (fun _ => OmOutcome.ok jsGood)).2 = some 5 := by
  refine ⟨rfl, ?_⟩
  have h := (C3_amended jsGood).2 [some 5] rfl (by decide)
  simpa using h

/-- C7 counterexample: for the response max = [20, 22], min = [10, 12],
precipitation = [5, null] (the spec's own 2-day scenario), both days have
max and min present and the midpoints are [15, 17], yet the code's mean
temperature is absent, not 16: the np.sum TypeError on the precipitation
null sends the whole fetch into the except-branch. -/
theorem C7_counterexample :
    midpoints (jsPoison.temperature_2m_max.getD []) (jsPoison.temperature_2m_min.getD [])
        = [15, 17] ∧
      (fetch_temp_precip (fun _ => OmOutcome.ok jsPoison)).1 = none ∧
      (fetch_temp_precip (fun _ => OmOutcome.ok jsPoison)).1 ≠ some 16 := by
  refine ⟨?_, by decide, by decide⟩
  norm_num [midpoints, jsPoison]

/-- C7 amended: for every climate-backend response whose precipitation
series, when present, contains no absent day, the mean temperature equals
the arithmetic mean of the per-day midpoints (max+min)/2 over exactly the
days where both values are present, and is absent when no such day exists;
for the 2-day window max = [20, 22], min = [10, 12] with precipitation [5]
the mean temperature is 16. -/
theorem C7_amended :
    (∀ js : DailyResponse,
      (∀ l, js.precipitation_sum = some l → ¬ none ∈ l) →
      (fetch_temp_precip (fun _ => OmOutcome.ok js)).1 =
        (let temps := midpoints (js.temperature_2m_max.getD [])
            (js.temperature_2m_min.getD [])
         if temps = [] then none else some (temps.sum / temps.length))) ∧
      (fetch_temp_precip (fun _ => OmOutcome.ok jsGood)).1 = some 16 := by
  constructor
  · intro js hsafe
    cases hp : js.precipitation_sum with
    | none => simp [fetch_temp_precip, fetchFromDaily, hp]
    | some l =>
      have hm : ¬ none ∈ l := hsafe l hp
      have hne : npSum l ≠ none := fun h => hm ((npSum_eq_none_iff l).1 h)
      rcases Option.ne_none_iff_exists'.1 hne with ⟨s, hs⟩
      simp [fetch_temp_precip, fetchFromDaily, hp, hs]
  · norm_num [fetch_temp_precip, fetchFromDaily, jsGood, midpoints, npSum]
    intro h
    simp at h

/-- Witness for C7 amended on the response with no precipitation key. -/
theorem C7_amended_witness :
    (fetch_temp_precip (fun _ => OmOutcome.ok jsNoPrecip)).1 =
      (let temps := midpoints (jsNoPrecip.temperature_2m_max.getD [])
          (jsNoPrecip.temperature_2m_min.getD [])
       if temps = [] then none else some (temps.sum / temps.length)) :=
  C7_amended.1 jsNoPrecip (fun l hl => by simp [jsNoPrecip] at hl)

/-- Modelled from the spec: the retry behavior C5 claims for every fetch
operation — on an error other than a rate-limit signal, retry up to the
fixed ceiling of 3 attempts and return the all-absent pair after the final
failed attempt. Written only for comparison with the serial
fetch_temp_precip, which has no retry loop in the source. -/
def fetch_temp_precip_claimed_go (attempts : ℕ → OmOutcome) : ℕ → ℕ → Option ℚ × Option ℚ
  | _, 0 => (none, none)
  | attempt, rem + 1 =>
    match attempts attempt with
    | .ok js => (fetchFromDaily js).getD (none, none)
    | .status429 => (none, none)
    | .otherErr => fetch_temp_precip_claimed_go attempts (attempt + 1) rem

/-- Entry point of the claimed retrying climate fetcher (3 attempts). -/
def fetch_temp_precip_claimed (attempts : ℕ → OmOutcome) : Option ℚ × Option ℚ :=
  fetch_temp_precip_claimed_go attempts 0 3

/-- Backend script for C5: the first request fails with a non-rate-limit
error, every later request succeeds with jsGood. -/
def omFirstErrThenGood : ℕ → OmOutcome :=
  fun n => if n = 0 then OmOutcome.otherErr else OmOutcome.ok jsGood

/-- C5 counterexample: the serial climate fetcher performs a single attempt —
when the first request fails with a non-rate-limit error it returns the
all-absent pair even though a retry (as the claim demands) would have
returned (16, 5); the code's result differs from the claimed retrying
behavior at this input. -/
theorem C5_counterexample :
    fetch_temp_precip omFirstErrThenGood = (none, none) ∧
      fetch_temp_precip_claimed omFirstErrThenGood = (some 16, some 5) ∧
      fetch_temp_precip omFirstErrThenGood ≠ fetch_temp_precip_claimed omFirstErrThenGood := by
  have h1 : fetch_temp_precip omFirstErrThenGood = (none, none) := by decide
  have h2 : fetch_temp_precip_claimed omFirstErrThenGood = (some 16, some 5) := by
    norm_num [fetch_temp_precip_claimed, fetch_temp_precip_claimed_go, omFirstErrThenGood,
      fetchFromDaily, jsGood, midpoints, npSum]
    intro h
    simp at h
  exact ⟨h1, h2, by rw [h1, h2]; simp⟩

/-- C5 amended: on errors other than a rate-limit signal, the two threaded
fetchers and the serial NDVI fetcher retry up to the fixed ceiling of 3
attempts and return an all-absent result-record after the final failed
attempt rather than raising (the threaded climate fetcher with a fixed 5 s
delay, the NDVI fetchers with no delay); the serial climate fetcher instead
performs a single attempt — its result depends only on the first outcome —
and returns the all-absent pair on any error. -/
theorem C5_amended :
    (∀ a, (∀ i, a i = GeeOutcome.otherErr) → fetch_ndvi a = none) ∧
    (∀ a, (∀ i, a i = GeeOutcome.otherErr) →
      fetch_ndvi_single a = Except.ok [(Config.NDVI_COL, none)]) ∧
    (∀ a, (∀ i, a i = OmOutcome.otherErr) →
      fetch_temp_precip_single a =
        Except.ok [(Config.TEMP_COL, none), (Config.PRECIP_COL, none)]) ∧
    (∀ a js t p, a 0 = OmOutcome.otherErr → a 1 = OmOutcome.ok js →
      fetchFromDaily js = some (t, p) →
      fetch_temp_precip_single a = Except.ok [(Config.TEMP_COL, t), (Config.PRECIP_COL, p)]) ∧
    (∀ a b, a 0 = b 0 → fetch_temp_precip a = fetch_temp_precip b) ∧
    (∀ a, a 0 = OmOutcome.otherErr ∨ a 0 = OmOutcome.status429 →
      fetch_temp_precip a = (none, none)) := by
  refine ⟨?_, ?_, ?_, ?_, ?_, ?_⟩
  · intro a h
    simp [fetch_ndvi, fetch_ndvi_go, h 0, h 1, h 2]
  · intro a h
    simp [fetch_ndvi_single, fetch_ndvi_single_go, h 0, h 1, h 2]
  · intro a h
    simp [fetch_temp_precip_single, fetch_temp_precip_single_go, h 0, h 1, h 2]
  · intro a js t p h0 h1 hjs
    simp [fetch_temp_precip_single, fetch_temp_precip_single_go, h0, h1, hjs]
  · intro a b h
    simp [fetch_temp_precip, h]
  · intro a h
    rcases h with h | h <;> simp [fetch_temp_precip, h]

/-- Witness for C5 amended on constant-error backends. -/
theorem C5_amended_witness :
    fetch_ndvi (fun _ => GeeOutcome.otherErr) = none ∧
      fetch_temp_precip (fun _ => OmOutcome.otherErr) = (none, none) :=
  ⟨C5_amended.1 (fun _ => GeeOutcome.otherErr) (fun _ => rfl),
   C5_amended.2.2.2.2.2 (fun _ => OmOutcome.otherErr) (Or.inl rfl)⟩

/-- Cell key of the response caches. The scripts key the JSON dicts by
f"{year},{lat},{lon}"; within a configuration each quantized float always
serializes to the same text and the components carry no comma, so the string
keys are in bijection with the structured triple kept here. -/
structure CellKey where
  year : ℤ
  qlat : ℚ
  qlon : ℚ
deriving DecidableEq

/-- Lookup in a cache dict modelled as an association list (first binding
wins; the processing loops never bind a live key twice). -/
def cacheFind {V : Type} : List (CellKey × V) → CellKey → Option V
  | [], _ => none
  | (k', v) :: rest, k => if k = k' then some v else cacheFind rest k

/-- One checkpoint row as the serial NDVI pass sees it: the year, the derived
gee_lat / gee_lon columns, and the NDVI result column — `none` meaning still
unset, `some v` meaning written with v (v itself may be the absent value). -/
structure Row where
  year : ℤ
  gee_lat : ℚ
  gee_lon : ℚ
  ndvi : Option (Option ℚ)
deriving DecidableEq

/-- The row mask (df["year"] == year) & (df["gee_lat"] == lat) &
(df["gee_lon"] == lon) as the key the row belongs to. -/
def rowKey (r : Row) : CellKey := ⟨r.year, r.gee_lat, r.gee_lon⟩

/-- df.loc[mask, NDVI_COL] = v : write v into the NDVI column of every row
matching the cell key. -/
def broadcast (k : CellKey) (v : Option ℚ) (df : List Row) : List Row :=
  df.map (fun r => if rowKey r = k then { r with ndvi := some v } else r)

/-- In-memory state of the serial NDVI pass: the response cache (values are
scalar-or-null) and the checkpoint rows. -/
structure NdviState where
  cache : List (CellKey × Option ℚ)
  df : List Row
deriving DecidableEq

/-- Body of the serial process_ndvi inner loop for one (lat, lon): a cache
hit broadcasts the cached value and fetches nothing; a miss fetches, stores
the result under the key and broadcasts it. The second component lists the
keys for which a backend fetch was issued. -/
def processPointSerial (fetch : CellKey → Option ℚ) (st : NdviState) (p : CellKey) :
    NdviState × List CellKey :=
  match cacheFind st.cache p with
  | some v => (⟨st.cache, broadcast p v st.df⟩, [])
  | none => (⟨(p, fetch p) :: st.cache, broadcast p (fetch p) st.df⟩, [p])

/-- The serial process_ndvi point loop over a whole run: the year and batch
structure only interleaves checkpointing, so a run's cache and row effects
are the fold of processPointSerial over the concatenation of its batches. -/
def processNdviSerial (fetch : CellKey → Option ℚ) :
    NdviState → List CellKey → NdviState × List CellKey
  | st, [] => (st, [])
  | st, p :: rest =>
    let s := processPointSerial fetch st p
    let f := processNdviSerial fetch s.1 rest
    (f.1, s.2 ++ f.2)

/-- One checkpoint row as the threaded NDVI pass sees it, with the result
columns kept as a column-name store written through
df.loc[mask, k] = v (a later write to a column shadows an earlier one). -/
structure TRow where
  year : ℤ
  gee_lat : ℚ
  gee_lon : ℚ
  cols : List (String × Option ℚ)
deriving DecidableEq

/-- The threaded row mask as a cell key. -/
def tRowKey (r : TRow) : CellKey := ⟨r.year, r.gee_lat, r.gee_lon⟩

/-- Column lookup in a row's store (last write wins). -/
def colFind : List (String × Option ℚ) → String → Option (Option ℚ)
  | [], _ => none
  | (c', v) :: rest, c => if c = c' then some v else colFind rest c

/-- The per-column writes `for k, v in vals.items(): df.loc[mask, k] = v`
applied to one row's column store. -/
def writeVals (vals : Vals) (cols : List (String × Option ℚ)) : List (String × Option ℚ) :=
  vals.foldl (fun cs cv => cv :: cs) cols

/-- Write a result dict into every row matching the cell key. -/
def writeCols (k : CellKey) (vals : Vals) (df : List TRow) : List TRow :=
  df.map (fun r => if tRowKey r = k then { r with cols := writeVals vals r.cols } else r)

/-- In-memory state of the threaded NDVI pass. -/
structure TState where
  cache : List (CellKey × Vals)
  df : List TRow
deriving DecidableEq

/-- The cache-check loop at the head of a threaded batch: a hit broadcasts
the cached dict immediately, a miss is appended to to_fetch. Returns the
updated rows and to_fetch in batch order. -/
def cacheCheck (cache : List (CellKey × Vals)) :
    List TRow → List CellKey → List TRow × List CellKey
  | df, [] => (df, [])
  | df, p :: rest =>
    match cacheFind cache p with
    | some vals => cacheCheck cache (writeCols p vals df) rest
    | none =>
      let r := cacheCheck cache df rest
      (r.1, p :: r.2)

/-- Collect the worker-pool results for the missed keys; a
RuntimeError("…_RATE_LIMIT") escaping any worker aborts the collection. -/
def collectResults (fetchE : CellKey → Except String Vals) :
    List CellKey → Except String (List (CellKey × Vals))
  | [] => Except.ok []
  | p :: rest =>
    (fetchE p).bind fun v => (collectResults fetchE rest).map fun r => (p, v) :: r

/-- Merge phase of a threaded batch: cache[cache_key] = vals and the
per-column broadcast, for each fetched result. -/
def mergeResults : List (CellKey × Vals) → TState → TState
  | [], st => st
  | (p, vals) :: rest, st => mergeResults rest ⟨(p, vals) :: st.cache, writeCols p vals st.df⟩

/-- Outcome of a threaded batch or run: `done st fetched` after the
end-of-batch persist, or `abort st code` — the checkpoint and cache of st
were flushed (df.to_csv and save_cache) and the process called
sys.exit(code). -/
inductive TBatchResult where
  | done (st : TState) (fetched : List CellKey)
  | abort (st : TState) (code : ℕ)
deriving DecidableEq

/-- One batch of the threaded process_ndvi: cache check, dispatch of the
misses to the pool, merge, persist. A rate-limit RuntimeError from any
worker saves the checkpoint (with this batch's cache hits already
broadcast) and the cache as they stand, then exits with status 1. -/
def processBatchThreaded (fetchE : CellKey → Except String Vals) (st : TState)
    (batch : List CellKey) : TBatchResult :=
  let c := cacheCheck st.cache st.df batch
  match collectResults fetchE c.2 with
  | .error _ => .abort ⟨st.cache, c.1⟩ 1
  | .ok new_data => .done (mergeResults new_data ⟨st.cache, c.1⟩) c.2

/-- A threaded NDVI run: its batches in order, the whole run stopping at the
first rate-limit abort. -/
def runThreaded (fetchE : CellKey → Except String Vals) :
    TState → List (List CellKey) → TBatchResult
  | st, [] => .done st []
  | st, b :: rest =>
    match processBatchThreaded fetchE st b with
    | .done st' fetched =>
      match runThreaded fetchE st' rest with
      | .done stF fs => .done stF (fetched ++ fs)
      | .abort stA c => .abort stA c
    | .abort stA c => .abort stA c

/-- State carried by a batch result (the flushed state on abort). -/
def TBatchResult.state : TBatchResult → TState
  | .done st _ => st
  | .abort st _ => st

/-- Keys fetched during a completed run (an aborted run's partial batch
contributes nothing to cache or checkpoint). -/
def TBatchResult.fetched : TBatchResult → List CellKey
  | .done _ f => f
  | .abort _ _ => []

theorem cacheFind_cons_ne {V : Type} (cache : List (CellKey × V)) (p k : CellKey) (v : V)
    (h : k ≠ p) : cacheFind ((p, v) :: cache) k = cacheFind cache k := by
  simp [cacheFind, h]

theorem cacheFind_cons_self {V : Type} (cache : List (CellKey × V)) (p : CellKey) (v : V) :
    cacheFind ((p, v) :: cache) p = some v := by
  simp [cacheFind]

theorem processNdviSerial_cache_preserves (fetch : CellKey → Option ℚ) :
    ∀ (pts : List CellKey) (st : NdviState) (k : CellKey) (v : Option ℚ),
      cacheFind st.cache k = some v →
      cacheFind (processNdviSerial fetch st pts).1.cache k = some v := by
  intro pts
  induction pts with
  | nil => intro st k v h; simpa [processNdviSerial] using h
  | cons p rest ih =>
    intro st k v h
    simp only [processNdviSerial]
    apply ih
    cases hp : cacheFind st.cache p with
    | some w => simpa [processPointSerial, hp] using h
    | none =>
      have hk : k ≠ p := by
        intro e
        rw [e, hp] at h
        cases h
      simp only [processPointSerial, hp]
      rw [cacheFind_cons_ne _ _ _ _ hk]
      exact h

theorem processNdviSerial_no_refetch (fetch : CellKey → Option ℚ) :
    ∀ (pts : List CellKey) (st : NdviState) (k : CellKey),
      (cacheFind st.cache k).isSome → k ∉ (processNdviSerial fetch st pts).2 := by
  intro pts
  induction pts with
  | nil => intro st k _; simp [processNdviSerial]
  | cons p rest ih =>
    intro st k h
    rcases Option.isSome_iff_exists.1 h with ⟨v, hv⟩
    simp only [processNdviSerial, List.mem_append, not_or]
    cases hp : cacheFind st.cache p with
    | some w =>
      refine ⟨by simp [processPointSerial, hp], ?_⟩
      apply ih
      simpa [processPointSerial, hp] using h
    | none =>
      have hk : k ≠ p := by
        intro e
        rw [e, hp] at hv
        cases hv
      refine ⟨by simp [processPointSerial, hp, hk], ?_⟩
      apply ih
      simp only [processPointSerial, hp]
      rw [cacheFind_cons_ne _ _ _ _ hk, hv]
      rfl

theorem mem_cacheCheck_toFetch (cache : List (CellKey × Vals)) :
    ∀ (batch : List CellKey) (df : List TRow) (p : CellKey),
      p ∈ (cacheCheck cache df batch).2 ↔ p ∈ batch ∧ cacheFind cache p = none := by
  intro batch
  induction batch with
  | nil => intro df p; simp [cacheCheck]
  | cons q rest ih =>
    intro df p
    cases hq : cacheFind cache q with
    | some vals =>
      simp only [cacheCheck, hq, ih, List.mem_cons]
      constructor
      · rintro ⟨h1, h2⟩
        exact ⟨Or.inr h1, h2⟩
      · rintro ⟨h1 | h1, h2⟩
        · subst h1
          rw [hq] at h2
          cases h2
        · exact ⟨h1, h2⟩
    | none =>
      simp only [cacheCheck, hq, List.mem_cons, ih]
      constructor
      · rintro (rfl | ⟨h1, h2⟩)
        · exact ⟨Or.inl rfl, hq⟩
        · exact ⟨Or.inr h1, h2⟩
      · rintro ⟨rfl | h1, h2⟩
        · exact Or.inl rfl
        · exact Or.inr ⟨h1, h2⟩

theorem collectResults_ok_keys (fetchE : CellKey → Except String Vals) :
    ∀ (l : List CellKey) (r : List (CellKey × Vals)),
      collectResults fetchE l = Except.ok r → r.map Prod.fst = l := by
  intro l
  induction l with
  | nil =>
    intro r h
    simp only [collectResults] at h
    cases h
    rfl
  | cons p rest ih =>
    intro r h
    simp only [collectResults] at h
    cases hf : fetchE p with
    | error e => rw [hf] at h; simp [Except.bind] at h
    | ok v =>
      rw [hf] at h
      cases hc : collectResults fetchE rest with
      | error e => rw [hc] at h; simp [Except.bind, Except.map] at h
      | ok rr =>
        rw [hc] at h
        simp only [Except.bind, Except.map] at h
        cases h
        simp [ih rr hc]

theorem collectResults_error_of_mem (fetchE : CellKey → Except String Vals) :
    ∀ (l : List CellKey) (p : CellKey) (e : String), p ∈ l → fetchE p = Except.error e →
      ∃ e', collectResults fetchE l = Except.error e' := by
  intro l
  induction l with
  | nil => intro p e h; cases h
  | cons q rest ih =>
    intro p e hm hf
    rcases List.mem_cons.1 hm with rfl | hm
    · exact ⟨e, by simp [collectResults, hf, Except.bind]⟩
    · cases hq : fetchE q with
      | error e2 => exact ⟨e2, by simp [collectResults, hq, Except.bind]⟩
      | ok v =>
        rcases ih p e hm hf with ⟨e', he⟩
        exact ⟨e', by simp [collectResults, hq, he, Except.bind, Except.map]⟩

theorem mergeResults_cacheFind (k : CellKey) :
    ∀ (l : List (CellKey × Vals)) (st : TState), (∀ pv ∈ l, pv.1 ≠ k) →
      cacheFind (mergeResults l st).cache k = cacheFind st.cache k := by
  intro l
  induction l with
  | nil => intro st _; rfl
  | cons pv rest ih =>
    intro st h
    obtain ⟨p, vals⟩ := pv
    simp only [mergeResults]
    rw [ih _ (fun q hq => h q (List.mem_cons_of_mem _ hq))]
    exact cacheFind_cons_ne _ _ _ _
      (fun e => h (p, vals) (List.mem_cons_self _ _) e.symm)

theorem processBatchThreaded_cache_preserves (fetchE : CellKey → Except String Vals)
    (st : TState) (batch : List CellKey) (k : CellKey) (v : Vals)
    (h : cacheFind st.cache k = some v) :
    cacheFind (processBatchThreaded fetchE st batch).state.cache k = some v := by
  cases hc : collectResults fetchE (cacheCheck st.cache st.df batch).2 with
  | error e =>
    simp only [processBatchThreaded, hc, TBatchResult.state]
    exact h
  | ok nd =>
    simp only [processBatchThreaded, hc, TBatchResult.state]
    rw [mergeResults_cacheFind]
    · exact h
    · intro pv hpv e
      have hkeys := collectResults_ok_keys fetchE _ nd hc
      have hmem : pv.1 ∈ (cacheCheck st.cache st.df batch).2 := by
        rw [← hkeys]
        exact List.mem_map_of_mem _ hpv
      have hnone := ((mem_cacheCheck_toFetch st.cache batch st.df pv.1).1 hmem).2
      rw [e, h] at hnone
      cases hnone

theorem processBatchThreaded_fetched (fetchE : CellKey → Except String Vals)
    (st : TState) (batch : List CellKey) (st' : TState) (fetched : List CellKey)
    (h : processBatchThreaded fetchE st batch = .done st' fetched) :
    fetched = (cacheCheck st.cache st.df batch).2 := by
  cases hc : collectResults fetchE (cacheCheck st.cache st.df batch).2 with
  | error e =>
    simp only [processBatchThreaded, hc] at h
    cases h
  | ok nd =>
    simp only [processBatchThreaded, hc] at h
    cases h
    rfl

theorem runThreaded_cache_preserves (fetchE : CellKey → Except String Vals) :
    ∀ (batches : List (List CellKey)) (st : TState) (k : CellKey) (v : Vals),
      cacheFind st.cache k = some v →
      cacheFind ((runThreaded fetchE st batches).state).cache k = some v := by
  intro batches
  induction batches with
  | nil => intro st k v h; simpa [runThreaded, TBatchResult.state] using h
  | cons b rest ih =>
    intro st k v h
    have hbatch := processBatchThreaded_cache_preserves fetchE st b k v h
    cases hb : processBatchThreaded fetchE st b with
    | done st' fetched =>
      rw [hb] at hbatch
      simp only [TBatchResult.state] at hbatch
      have hrest := ih st' k v hbatch
      cases hr : runThreaded fetchE st' rest with
      | done stF fs =>
        rw [hr] at hrest
        simpa [runThreaded, hb, hr, TBatchResult.state] using hrest
      | abort stA c =>
        rw [hr] at hrest
        simpa [runThreaded, hb, hr, TBatchResult.state] using hrest
    | abort stA c =>
      rw [hb] at hbatch
      simpa [runThreaded, hb, TBatchResult.state] using hbatch

theorem runThreaded_no_refetch (fetchE : CellKey → Except String Vals) :
    ∀ (batches : List (List CellKey)) (st : TState) (k : CellKey),
      (cacheFind st.cache k).isSome → k ∉ (runThreaded fetchE st batches).fetched := by
  intro batches
  induction batches with
  | nil => intro st k _; simp [runThreaded, TBatchResult.fetched]
  | cons b rest ih =>
    intro st k h
    rcases Option.isSome_iff_exists.1 h with ⟨v, hv⟩
    cases hb : processBatchThreaded fetchE st b with
    | abort stA c => simp [runThreaded, hb, TBatchResult.fetched]
    | done st' fetched =>
      have hk1 : k ∉ fetched := by
        rw [processBatchThreaded_fetched fetchE st b st' fetched hb]
        intro hm
        have := ((mem_cacheCheck_toFetch st.cache b st.df k).1 hm).2
        rw [this] at hv
        cases hv
      have h' : (cacheFind st'.cache k).isSome := by
        have := processBatchThreaded_cache_preserves fetchE st b k v hv
        rw [hb] at this
        simp only [TBatchResult.state] at this
        simp [this]
      have hk2 := ih st' k h'
      cases hr : runThreaded fetchE st' rest with
      | done stF fs =>
        rw [hr] at hk2
        simp only [TBatchResult.fetched] at hk2
        simp only [runThreaded, hb, hr, TBatchResult.fetched, List.mem_append, not_or]
        exact ⟨hk1, hk2⟩
      | abort stA c => simp [runThreaded, hb, hr, TBatchResult.fetched]

/-- Per-row effect of one step of the threaded cache-check loop. -/
def hitUpdate (cache : List (CellKey × Vals)) (r : TRow) (p : CellKey) : TRow :=
  match cacheFind cache p with
  | some vals => if tRowKey r = p then { r with cols := writeVals vals r.cols } else r
  | none => r

theorem cacheCheck_df_eq_map (cache : List (CellKey × Vals)) :
    ∀ (batch : List CellKey) (df : List TRow),
      (cacheCheck cache df batch).1 = df.map (fun r => batch.foldl (hitUpdate cache) r) := by
  intro batch
  induction batch with
  | nil => intro df; simp [cacheCheck]
  | cons q rest ih =>
    intro df
    cases hq : cacheFind cache q with
    | some vals =>
      simp only [cacheCheck, hq]
      rw [ih, writeCols, List.map_map]
      apply List.map_congr_left
      intro r _
      simp [List.foldl_cons, hitUpdate, hq, Function.comp]
    | none =>
      simp only [cacheCheck, hq]
      rw [ih]
      apply List.map_congr_left
      intro r _
      simp [List.foldl_cons, hitUpdate, hq]

theorem foldl_hitUpdate_not_mem (cache : List (CellKey × Vals)) :
    ∀ (batch : List CellKey) (r : TRow), tRowKey r ∉ batch →
      batch.foldl (hitUpdate cache) r = r := by
  intro batch
  induction batch with
  | nil => intro r _; rfl
  | cons q rest ih =>
    intro r h
    simp only [List.mem_cons, not_or] at h
    have hstep : hitUpdate cache r q = r := by
      unfold hitUpdate
      cases cacheFind cache q with
      | none => rfl
      | some vals => simp [h.1]
    rw [List.foldl_cons, hstep, ih r h.2]

theorem foldl_hitUpdate_hit (cache : List (CellKey × Vals)) :
    ∀ (batch : List CellKey) (r : TRow) (k : CellKey) (vals : Vals),
      batch.Nodup → k ∈ batch → cacheFind cache k = some vals → tRowKey r = k →
      batch.foldl (hitUpdate cache) r = { r with cols := writeVals vals r.cols } := by
  intro batch
  induction batch with
  | nil => intro r k vals _ hm; cases hm
  | cons q rest ih =>
    intro r k vals hnd hm hc hk
    rcases List.mem_cons.1 hm with rfl | hm
    · have h1 : hitUpdate cache r k = { r with cols := writeVals vals r.cols } := by
        unfold hitUpdate
        rw [hc]
        simp [hk]
      rw [List.foldl_cons, h1]
      apply foldl_hitUpdate_not_mem
      show tRowKey r ∈ rest → False
      intro hmem
      rw [hk] at hmem
      exact (List.nodup_cons.1 hnd).1 hmem
    · have hkq : k ≠ q := by
        intro e
        rw [e] at hm
        exact (List.nodup_cons.1 hnd).1 hm
      have hstep : hitUpdate cache r q = r := by
        unfold hitUpdate
        cases cacheFind cache q with
        | none => rfl
        | some w =>
          have : tRowKey r ≠ q := by rw [hk]; exact hkq
          simp [this]
      rw [List.foldl_cons, hstep]
      exact ih r k vals (List.nodup_cons.1 hnd).2 hm hc hk

/-- C1: a cell key already present in the response cache at lookup time —
including keys whose cached value is the absent/null value — has the cached
value broadcast to every matching record and is never dispatched to the
backend, in both the serial and the threaded process_ndvi; and no operation
removes a cache key or overwrites an existing binding, so over any run the
set of cache keys only grows and a key that has a value is never
refetched. -/
theorem C1_cache_hit_monotonicity :
    (∀ (fetch : CellKey → Option ℚ) (st : NdviState) (pts : List CellKey) (k : CellKey),
      (cacheFind st.cache k).isSome → k ∉ (processNdviSerial fetch st pts).2) ∧
    (∀ (fetch : CellKey → Option ℚ) (st : NdviState) (pts : List CellKey) (k : CellKey)
      (v : Option ℚ), cacheFind st.cache k = some v →
      cacheFind (processNdviSerial fetch st pts).1.cache k = some v) ∧
    (∀ (fetch : CellKey → Option ℚ) (st : NdviState) (p : CellKey) (v : Option ℚ),
      cacheFind st.cache p = some v →
      processPointSerial fetch st p = (⟨st.cache, broadcast p v st.df⟩, []) ∧
      ∀ (i : ℕ) (r : Row), st.df[i]? = some r → rowKey r = p →
        (broadcast p v st.df)[i]? = some { r with ndvi := some v }) ∧
    (∀ (fetchE : CellKey → Except String Vals) (st : TState)
      (batches : List (List CellKey)) (k : CellKey),
      (cacheFind st.cache k).isSome → k ∉ (runThreaded fetchE st batches).fetched) ∧
    (∀ (fetchE : CellKey → Except String Vals) (st : TState)
      (batches : List (List CellKey)) (k : CellKey) (v : Vals),
      cacheFind st.cache k = some v →
      cacheFind ((runThreaded fetchE st batches).state).cache k = some v) ∧
    (∀ (cache : List (CellKey × Vals)) (batch : List CellKey) (df : List TRow)
      (k : CellKey) (vals : Vals),
      batch.Nodup → k ∈ batch → cacheFind cache k = some vals →
      ∀ (i : ℕ) (r : TRow), df[i]? = some r → tRowKey r = k →
        ((cacheCheck cache df batch).1)[i]? =
          some { r with cols := writeVals vals r.cols }) := by
  refine ⟨fun fetch st pts k h => processNdviSerial_no_refetch fetch pts st k h,
    fun fetch st pts k v h => processNdviSerial_cache_preserves fetch pts st k v h,
    ?_,
    fun fetchE st batches k h => runThreaded_no_refetch fetchE batches st k h,
    fun fetchE st batches k v h => runThreaded_cache_preserves fetchE batches st k v h,
    ?_⟩
  · intro fetch st p v h
    refine ⟨by simp [processPointSerial, h], ?_⟩
    intro i r hi hr
    simp [broadcast, List.getElem?_map, hi, hr]
  · intro cache batch df k vals hnd hm hc i r hi hr
    rw [cacheCheck_df_eq_map, List.getElem?_map, hi]
    simp [foldl_hitUpdate_hit cache batch r k vals hnd hm hc hr]

/-- Witness fixtures for the cache model: a key, a matching serial row and
state whose cache holds the key with the absent value, and their threaded
counterparts. -/
def kW : CellKey := ⟨2020, 1, 2⟩

/-- One serial checkpoint row matching kW, NDVI still unset. -/
def rowW : Row := ⟨2020, 1, 2, none⟩

/-- Serial state: cache holds kW with the absent value, one matching row. -/
def stW : NdviState := ⟨[(kW, none)], [rowW]⟩

/-- One threaded checkpoint row matching kW, no result columns yet. -/
def trowW : TRow := ⟨2020, 1, 2, []⟩

/-- Threaded state: cache holds kW with the one-column null dict. -/
def tstW : TState := ⟨[(kW, [(Config.NDVI_COL, none)])], [trowW]⟩

/-- Witness for C1 on the concrete absent-valued cache entry kW. -/
theorem C1_cache_hit_monotonicity_witness :
    kW ∉ (processNdviSerial (fun _ => some 7) stW [kW]).2 ∧
    cacheFind (processNdviSerial (fun _ => some 7) stW [kW]).1.cache kW = some none ∧
    processPointSerial (fun _ => some 7) stW kW = (⟨stW.cache, broadcast kW none stW.df⟩, []) ∧
    kW ∉ (runThreaded (fun _ => Except.error "GEE_RATE_LIMIT") tstW [[kW]]).fetched ∧
    cacheFind ((runThreaded (fun _ => Except.error "GEE_RATE_LIMIT") tstW [[kW]]).state).cache kW
      = some [(Config.NDVI_COL, none)] ∧
    ((cacheCheck tstW.cache tstW.df [kW]).1)[0]? =
      some { trowW with cols := writeVals [(Config.NDVI_COL, none)] trowW.cols } :=
  ⟨C1_cache_hit_monotonicity.1 (fun _ => some 7) stW [kW] kW (by decide),
   C1_cache_hit_monotonicity.2.1 (fun _ => some 7) stW [kW] kW none (by decide),
   (C1_cache_hit_monotonicity.2.2.1 (fun _ => some 7) stW kW none (by decide)).1,
   C1_cache_hit_monotonicity.2.2.2.1 (fun _ => Except.error "GEE_RATE_LIMIT") tstW [[kW]] kW
     (by decide),
   C1_cache_hit_monotonicity.2.2.2.2.1 (fun _ => Except.error "GEE_RATE_LIMIT") tstW [[kW]] kW
     [(Config.NDVI_COL, none)] (by decide),
   C1_cache_hit_monotonicity.2.2.2.2.2 tstW.cache [kW] tstW.df kW [(Config.NDVI_COL, none)]
     (by decide) (by decide) (by decide) 0 trowW (by decide) (by decide)⟩

/-- C4: exhausting retries on a rate-limit signal aborts the whole threaded
run — the batch becomes `abort` with exit status 1, flushing the checkpoint
(with this batch's cache hits already broadcast) and the cache as they
stand, and no later batch runs — while in the serial variant the same
exhaustion makes fetch_ndvi return the absent value: the point's value is
cached as absent and processing continues with the next point. -/
theorem C4_rate_limit_policy :
    (∀ (fetchE : CellKey → Except String Vals) (st : TState) (batch : List CellKey)
      (p : CellKey) (e : String), p ∈ (cacheCheck st.cache st.df batch).2 →
      fetchE p = Except.error e →
      processBatchThreaded fetchE st batch =
        .abort ⟨st.cache, (cacheCheck st.cache st.df batch).1⟩ 1) ∧
    (∀ (fetchE : CellKey → Except String Vals) (st : TState) (b : List CellKey)
      (rest : List (List CellKey)) (stA : TState) (c : ℕ),
      processBatchThreaded fetchE st b = .abort stA c →
      runThreaded fetchE st (b :: rest) = .abort stA c) ∧
    (∀ attempts, (∀ i, attempts i = GeeOutcome.rateLimitErr) → fetch_ndvi attempts = none) ∧
    (∀ (fetch : CellKey → Option ℚ) (st : NdviState) (p : CellKey) (rest : List CellKey),
      cacheFind st.cache p = none → fetch p = none →
      cacheFind (processPointSerial fetch st p).1.cache p = some none ∧
      processNdviSerial fetch st (p :: rest) =
        ((processNdviSerial fetch (processPointSerial fetch st p).1 rest).1,
          p :: (processNdviSerial fetch (processPointSerial fetch st p).1 rest).2)) := by
  refine ⟨?_, ?_, ?_, ?_⟩
  · intro fetchE st batch p e hm hf
    rcases collectResults_error_of_mem fetchE _ p e hm hf with ⟨e', he⟩
    simp only [processBatchThreaded, he]
  · intro fetchE st b rest stA c h
    simp [runThreaded, h]
  · intro attempts h
    simp [fetch_ndvi, fetch_ndvi_go, h 0, h 1, h 2]
  · intro fetch st p rest hm hf
    constructor
    · simp [processPointSerial, hm, hf, cacheFind]
    · simp [processNdviSerial, processPointSerial, hm]

/-- Witness for C4: a rate-limited threaded batch aborts with status 1 and
the flushed state; the serial variant caches the absent value instead. -/
theorem C4_rate_limit_policy_witness :
    processBatchThreaded (fun _ => Except.error "GEE_RATE_LIMIT") ⟨[], [trowW]⟩ [kW] =
      .abort ⟨[], (cacheCheck ([] : List (CellKey × Vals)) [trowW] [kW]).1⟩ 1 ∧
    fetch_ndvi (fun _ => GeeOutcome.rateLimitErr) = none ∧
    cacheFind (processPointSerial (fun _ => none) ⟨[], [rowW]⟩ kW).1.cache kW = some none :=
  ⟨C4_rate_limit_policy.1 (fun _ => Except.error "GEE_RATE_LIMIT") ⟨[], [trowW]⟩ [kW] kW
     "GEE_RATE_LIMIT" (by decide) rfl,
   C4_rate_limit_policy.2.2.1 (fun _ => GeeOutcome.rateLimitErr) (fun _ => rfl),
   (C4_rate_limit_policy.2.2.2 (fun _ => none) ⟨[], [rowW]⟩ kW [] (by decide) rfl).1⟩

/-- The serial per-point fetcher when the backend rate-limits every attempt
of every request. -/
def rlFetch : CellKey → Option ℚ :=
  fun _ => fetch_ndvi (fun _ => GeeOutcome.rateLimitErr)

/-- C9: in the serial variant, when every retry attempt of an NDVI fetch
raises a rate-limit error, fetch_ndvi returns the absent value by falling
off the retry loop, and process_ndvi writes that absent value into the cache
under the cell key; the key is then a cache hit — reprocessing it issues no
fetch and broadcasts the cached absent value — and the cached entry equals
the value a genuinely empty backend response would have produced. -/
theorem C9_rate_limit_becomes_cached_absent :
    ∀ (st : NdviState) (p : CellKey), cacheFind st.cache p = none →
      fetch_ndvi (fun _ => GeeOutcome.rateLimitErr) = none ∧
      fetch_ndvi (fun _ => GeeOutcome.rateLimitErr) =
        fetch_ndvi (fun _ => GeeOutcome.ok none) ∧
      cacheFind (processPointSerial rlFetch st p).1.cache p = some none ∧
      (processPointSerial rlFetch (processPointSerial rlFetch st p).1 p).2 = [] ∧
      (processPointSerial rlFetch (processPointSerial rlFetch st p).1 p).1.df =
        broadcast p none (processPointSerial rlFetch st p).1.df := by
  intro st p hm
  have hnone : fetch_ndvi (fun _ => GeeOutcome.rateLimitErr) = none := by decide
  have hce : cacheFind (processPointSerial rlFetch st p).1.cache p = some none := by
    simp [processPointSerial, hm, rlFetch, hnone, cacheFind]
  have hhit : processPointSerial rlFetch (processPointSerial rlFetch st p).1 p =
      (⟨(processPointSerial rlFetch st p).1.cache,
        broadcast p none (processPointSerial rlFetch st p).1.df⟩, []) := by
    generalize (processPointSerial rlFetch st p).1 = st' at hce ⊢
    simp [processPointSerial, hce]
  exact ⟨hnone, by decide, hce, by rw [hhit], by rw [hhit]⟩

/-- Witness for C9 on the empty cache and the key kW. -/
theorem C9_rate_limit_becomes_cached_absent_witness :
    cacheFind (processPointSerial rlFetch ⟨[], [rowW]⟩ kW).1.cache kW = some none ∧
      (processPointSerial rlFetch (processPointSerial rlFetch ⟨[], [rowW]⟩ kW).1 kW).2 = [] :=
  ⟨(C9_rate_limit_becomes_cached_absent ⟨[], [rowW]⟩ kW (by decide)).2.2.1,
   (C9_rate_limit_becomes_cached_absent ⟨[], [rowW]⟩ kW (by decide)).2.2.2.1⟩

/-- Terminal condition of a run, as the scripts distinguish them. -/
inductive RunEvent where
  | normal
  | userInterrupt
  | rateLimitExhaustion
deriving DecidableEq

/-- How a Python process ends: an explicit exit status, or an exception
reaching the top level uncaught — the interpreter then prints a traceback
and terminates with a nonzero status, not with status 0. -/
inductive PyTermination where
  | exitCode (n : ℕ)
  | uncaughtException (exc : String)
deriving DecidableEq

/-- Termination of the threaded variant per run event, read off its main and
the two process loops: normal completion falls off main (status 0); a
KeyboardInterrupt inside a batch is caught and turned into sys.exit(0); a
RuntimeError("…_RATE_LIMIT") reaching the dispatch loop triggers
sys.exit(1) after the flush (both loops use the same codes). -/
def threaded_termination : RunEvent → PyTermination
  | .normal => .exitCode 0
  | .userInterrupt => .exitCode 0
  | .rateLimitExhaustion => .exitCode 1

/-- Termination of the serial variant per run event: its main and loops have
no handler, so a KeyboardInterrupt propagates uncaught; a rate-limit
exhaustion never escapes fetch_ndvi / fetch_temp_precip (both return an
absent value, as proved about their embeddings), so the run continues and
completes with status 0. -/
def serial_termination : RunEvent → PyTermination
  | .normal => .exitCode 0
  | .userInterrupt => .uncaughtException "KeyboardInterrupt"
  | .rateLimitExhaustion => .exitCode 0

theorem processBatchThreaded_abort_code (fetchE : CellKey → Except String Vals)
    (st : TState) (batch : List CellKey) (stA : TState) (c : ℕ)
    (h : processBatchThreaded fetchE st batch = .abort stA c) : c = 1 := by
  cases hc : collectResults fetchE (cacheCheck st.cache st.df batch).2 with
  | error e =>
    simp only [processBatchThreaded, hc] at h
    cases h
    rfl
  | ok nd =>
    simp only [processBatchThreaded, hc] at h
    cases h

theorem runThreaded_abort_code (fetchE : CellKey → Except String Vals) :
    ∀ (batches : List (List CellKey)) (st stA : TState) (c : ℕ),
      runThreaded fetchE st batches = .abort stA c → c = 1 := by
  intro batches
  induction batches with
  | nil =>
    intro st stA c h
    simp [runThreaded] at h
  | cons b rest ih =>
    intro st stA c h
    cases hb : processBatchThreaded fetchE st b with
    | abort stA' c' =>
      simp only [runThreaded, hb] at h
      cases h
      exact processBatchThreaded_abort_code fetchE st b stA c hb
    | done st' fetched =>
      simp only [runThreaded, hb] at h
      cases hr : runThreaded fetchE st' rest with
      | done stF fs =>
        rw [hr] at h
        cases h
      | abort stA' c' =>
        rw [hr] at h
        cases h
        exact ih st' stA c hr

/-- C6 counterexample: in the serial variant a rate-limit exhaustion is not
an abort at all — the run continues and completes with status 0 — and a
user interrupt is not caught, so it does not end in exit status 0 either;
the claim's "in both variants" is false. -/
theorem C6_counterexample :
    serial_termination RunEvent.rateLimitExhaustion = PyTermination.exitCode 0 ∧
      serial_termination RunEvent.userInterrupt ≠ PyTermination.exitCode 0 := by
  decide

/-- C6 amended: the threaded variant exits with status 0 on normal
completion and on user interrupt and with the distinguishing nonzero status
1 on a rate-limit-exhaustion abort (every abort of its run model carries
code 1); the serial variant exits 0 on normal completion but has no
rate-limit abort path — exhaustion is absorbed per point and the run
completes with status 0 — and no interrupt handler, a KeyboardInterrupt
terminating the interpreter uncaught rather than via exit status 0. -/
theorem C6_amended :
    threaded_termination RunEvent.normal = PyTermination.exitCode 0 ∧
    threaded_termination RunEvent.userInterrupt = PyTermination.exitCode 0 ∧
    threaded_termination RunEvent.rateLimitExhaustion = PyTermination.exitCode 1 ∧
    (∀ (fetchE : CellKey → Except String Vals) (batches : List (List CellKey))
      (st stA : TState) (c : ℕ), runThreaded fetchE st batches = .abort stA c → c = 1) ∧
    serial_termination RunEvent.normal = PyTermination.exitCode 0 ∧
    serial_termination RunEvent.rateLimitExhaustion = PyTermination.exitCode 0 ∧
    serial_termination RunEvent.userInterrupt =
      PyTermination.uncaughtException "KeyboardInterrupt" :=
  ⟨rfl, rfl, rfl, fun fetchE batches st stA c h => runThreaded_abort_code fetchE batches st stA c h,
   rfl, rfl, rfl⟩

/-- Witness for C6 amended: a concrete aborting threaded run carries code 1. -/
theorem C6_amended_witness : (1 : ℕ) = 1 :=
  C6_amended.2.2.2.1 (fun _ => Except.error "GEE_RATE_LIMIT") [[kW]] ⟨[], []⟩ ⟨[], []⟩ 1
    (by decide)

/-- JSON value as written by json.dump into the cache files. -/
inductive JValue where
  | null
  | num (q : ℚ)
  | str (s : String)
  | arr (elems : List JValue)
  | obj (fields : List (String × JValue))

/-- A Python float-or-None as JSON. -/
def jOfOpt : Option ℚ → JValue
  | none => .null
  | some q => .num q

/-- Serial NDVI cache entry: cache[cache_key] = ndvi — a bare scalar or
null. -/
def serial_ndvi_entry (v : Option ℚ) : JValue := jOfOpt v

/-- Serial climate cache entry: cache[cache_key] = (temp, precip) — a
two-element tuple, which json.dump serializes as an array. -/
def serial_om_entry (t p : Option ℚ) : JValue := .arr [jOfOpt t, jOfOpt p]

/-- Threaded NDVI cache entry: cache[cache_key] = {NDVI_COL: value}. -/
def threaded_ndvi_entry (v : Option ℚ) : JValue := .obj [(Config.NDVI_COL, jOfOpt v)]

/-- Threaded climate cache entry: {TEMP_COL: t, PRECIP_COL: p}. -/
def threaded_om_entry (t p : Option ℚ) : JValue :=
  .obj [(Config.TEMP_COL, jOfOpt t), (Config.PRECIP_COL, jOfOpt p)]

/-- vals.items() as iterated by the threaded cache-hit path: defined only on
objects; on a bare number, null or array Python raises AttributeError,
modelled as `none`. -/
def jItems : JValue → Option (List (String × JValue))
  | .obj fields => some fields
  | _ => none

/-- C10: the serial and threaded variants write incompatible cache-entry
formats — the serial NDVI path a bare scalar/null and the serial climate
path a two-element array, the threaded paths a column-name object — so for
any cell key and any fetched values the entries differ between the
variants, and a threaded run that reads a serial-written NDVI entry fails
when it iterates the entry's items (while its own entries iterate fine). -/
theorem C10_incompatible_cache_formats :
    (∀ v : Option ℚ, serial_ndvi_entry v ≠ threaded_ndvi_entry v) ∧
    (∀ t p : Option ℚ, serial_om_entry t p ≠ threaded_om_entry t p) ∧
    (∀ v : Option ℚ, jItems (serial_ndvi_entry v) = none) ∧
    (∀ v : Option ℚ, jItems (threaded_ndvi_entry v) = some [(Config.NDVI_COL, jOfOpt v)]) := by
  refine ⟨?_, ?_, ?_, ?_⟩
  · intro v
    cases v <;> exact fun h => JValue.noConfusion h
  · intro t p
    exact fun h => JValue.noConfusion h
  · intro v
    cases v <;> rfl
  · intro v
    rfl
